import Mathlib

/-
Verification development for the langgraph-agentcore-demo repository, a
natural-language-to-SQL agent.  The Python sources (bedrock_utils.py,
redshift_utils.py, langgraph_agent.py) are shallowly embedded below:

* pure string manipulation (str.split, substring tests via `in`, str.strip,
  str.upper, str.replace, the SQL-extraction regex) is modelled on `List Char`
  with executable recursive functions that mirror Python semantics;
* every interaction with an external service (the Redshift Data API, the
  Bedrock completion service, the LangGraph checkpoint store) is modelled by
  an explicit environment record of oracles describing the observable answers
  of that service, and the control flow of each Python function is translated
  statement by statement against those oracles;
* Python exceptions are modelled with `Except PyErr`; a caught exception takes
  the handler branch, an uncaught one propagates as `.error`.
-/

/-! ### Python exception kinds used by the embedded code -/

inductive PyErr where
  | keyError
  | indexError
  | typeError
  | valueError (msg : String)
  | runtimeError (msg : String)
  | timeoutError
  | clientError (code : String)
  | unboundLocal
deriving DecidableEq

/-! ### String primitives mirroring the Python operations

Strings are worked on as `List Char`.  `isPre` is boolean list-prefix,
`breakOnL sep s` finds the FIRST non-overlapping occurrence of `sep` in `s`
and returns the parts before and after it (`none` when `sep` does not occur),
`occursL` is Python's `sep in s`, `trimL` is `str.strip()` for the six ASCII
whitespace characters, `toUpperCh` is `str.upper` on one ASCII character. -/

def isPre : List Char → List Char → Bool
  | [], _ => true
  | _ :: _, [] => false
  | a :: as, b :: bs => a = b && isPre as bs

def breakOnL (sep : List Char) : List Char → Option (List Char × List Char)
  | [] => none
  | c :: cs =>
    if sep ≠ [] ∧ isPre sep (c :: cs) then
      some ([], (c :: cs).drop sep.length)
    else
      match breakOnL sep cs with
      | some (b, a) => some (c :: b, a)
      | none => none

def occursL (sep s : List Char) : Bool := (breakOnL sep s).isSome

def occursS (sep s : String) : Bool := occursL sep.data s.data

def isWS (c : Char) : Bool :=
  c = ' ' || c = '\t' || c = '\n' || c = '\r' || c = '\x0b' || c = '\x0c'

def trimL (s : List Char) : List Char :=
  ((s.dropWhile isWS).reverse.dropWhile isWS).reverse

def toUpperCh (c : Char) : Char :=
  if 97 ≤ c.toNat ∧ c.toNat ≤ 122 then Char.ofNat (c.toNat - 32) else c

def pyStrip (s : String) : String := String.mk (trimL s.data)

def pyUpperS (s : String) : String := String.mk (s.data.map toUpperCh)

/-! ### bedrock_utils.py — completion service adapters

`_call_bedrock` returns a parsed JSON response; the parsed value is modelled
by `Json` and handed to the adapters by the caller (the remote call itself is
outside the embedding).  `pyGet j k` is Python `j[k]` on a parsed value
(`KeyError` for a missing key, `TypeError` when `j` is not a dict);
`pyIndex j i` is `j[i]` (`IndexError` past the end of a list, `KeyError` for
an integer key on a dict).  `pyRepr` renders a value back to text the way the
diagnostic f-string interpolates it (quoting simplified to double quotes). -/

inductive Json where
  | str (s : String)
  | num (n : Int)
  | arr (xs : List Json)
  | obj (fields : List (String × Json))

def pyGet (j : Json) (k : String) : Except PyErr Json :=
  match j with
  | .obj fs =>
    match fs.find? (fun f => f.1 = k) with
    | some f => .ok f.2
    | none => .error .keyError
  | _ => .error .typeError

def pyIndex (j : Json) (i : Nat) : Except PyErr Json :=
  match j with
  | .arr xs =>
    match xs.get? i with
    | some v => .ok v
    | none => .error .indexError
  | .str s =>
    match s.data.get? i with
    | some c => .ok (.str (String.mk [c]))
    | none => .error .indexError
  | .obj _ => .error .keyError
  | .num _ => .error .typeError

mutual

def pyRepr : Json → String
  | .str s => "\x22" ++ s ++ "\x22"
  | .num n => toString n
  | .arr xs => "[" ++ pyReprItems xs ++ "]"
  | .obj fs => "\x7b" ++ pyReprFields fs ++ "\x7d"

def pyReprItems : List Json → String
  | [] => ""
  | [x] => pyRepr x
  | x :: xs => pyRepr x ++ ", " ++ pyReprItems xs

def pyReprFields : List (String × Json) → String
  | [] => ""
  | [(k, v)] => "\x22" ++ k ++ "\x22: " ++ pyRepr v
  | (k, v) :: fs => "\x22" ++ k ++ "\x22: " ++ pyRepr v ++ ", " ++ pyReprFields fs

end

/-- The shared lookup chain
`model_response["output"]["message"]["content"][0]["text"]` of
`query_llm` (bedrock_utils.py line 38) and `qna_llm` (line 50). -/
def extractResponseText (model_response : Json) : Except PyErr Json := do
  let output ← pyGet model_response "output"
  let message ← pyGet output "message"
  let content ← pyGet message "content"
  let first ← pyIndex content 0
  pyGet first "text"

/-- bedrock_utils.py lines 25-38: `query_llm` returns the nested field
directly; there is no try/except around the lookups, so a lookup failure
propagates to the caller. -/
def query_llm (model_response : Json) : Except PyErr Json :=
  extractResponseText model_response

/-- bedrock_utils.py lines 41-52: `qna_llm` wraps the same lookup chain in
`try/except (KeyError, IndexError)` and degrades to the diagnostic string
`f"Unexpected response format: {model_response}"`. -/
def qna_llm (model_response : Json) : Except PyErr Json :=
  match extractResponseText model_response with
  | .ok t => .ok t
  | .error .keyError => .ok (.str ("Unexpected response format: " ++ pyRepr model_response))
  | .error .indexError => .ok (.str ("Unexpected response format: " ++ pyRepr model_response))
  | .error e => .error e

/-! ### redshift_utils.py — statement executor and self-correcting runner

The Redshift Data API is modelled by oracles.  A statement's lifecycle, as
observed through `describe_statement`, is abstracted per statement id:
`status0` is the `Status` field of the first describe taken right after
submission, `polled` is the first status outside
`{SUBMITTED, PICKED, STARTED}` that the 1-2s polling loops settle on
(`Stmt.pollStatus` combines the two: the loop exits immediately when the
first describe is already terminal), and `queryString`/`error` are the
`QueryString`/`Error` fields of that first describe.  `get_statement_result`
outcomes are a separate oracle indexed by statement id and by the global
count of `get_statement_result` calls made inside one `redshift_querys` run
(outcome: a result payload, `ResourceNotFoundException`, or another
client error that no handler catches). -/

inductive Status where
  | SUBMITTED
  | PICKED
  | STARTED
  | FINISHED
  | FAILED
  | ABORTED
deriving DecidableEq

def Status.inflight : Status → Bool
  | .SUBMITTED => true
  | .PICKED => true
  | .STARTED => true
  | _ => false

/-- The payload of a `get_statement_result` response: column names from
`ColumnMetadata` and, per record, the first value of each typed-value cell
(redshift_utils.py lines 31-35 keep exactly these). -/
structure QueryResult where
  columnMetadata : List String
  records : List (List String)
deriving DecidableEq

/-- redshift_utils.py lines 31-35: `get_redshift_table_result` renders the
response as CSV text via pandas `to_csv(index=False)` (header line of column
names, one comma-separated line per record, trailing newline; quoting of
special characters is not modelled). -/
def get_redshift_table_result (r : QueryResult) : String :=
  String.intercalate "," r.columnMetadata ++ "\n"
    ++ String.join (r.records.map (fun row => String.intercalate "," row ++ "\n"))

inductive FetchR where
  | ok (t : QueryResult)
  | rnf
  | err (msg : String)

structure Stmt where
  queryString : String
  error : String
  status0 : Status
  polled : Status

/-- The status the polling loops
`while status in (SUBMITTED, PICKED, STARTED): ... describe ...`
(redshift_utils.py lines 94-96 and 109-111) terminate with. -/
def Stmt.pollStatus (s : Stmt) : Status :=
  if s.status0.inflight then s.polled else s.status0

structure RsEnv where
  /-- statement id ↦ observed lifecycle of that statement -/
  stmts : Nat → Stmt
  /-- id returned by the k-th `execute_query_redshift` resubmission inside
  `redshift_querys` (line 105) -/
  execIds : Nat → Nat
  /-- text returned by the k-th `llm_debugger(bad_sql, error, params)` call
  (line 102); `llm_debugger` already strips backslashes before returning -/
  debug : Nat → String → String → String
  /-- statement id and global call index ↦ outcome of that
  `get_statement_result` call (lines 90 and 122) -/
  fetch : Nat → Nat → FetchR

/-- redshift_utils.py line 103:
`q_s = cql.split('<sql>')[1].split('</sql>')[0].strip()`.
`none` models the `IndexError` raised by `[1]` when `'<sql>'` does not occur;
`split('<sql>')[1]` is the segment between the first occurrence and the next
one (or the end), and `split('</sql>')[0]` cuts that segment at the first
closing delimiter if present. -/
def pySplitExtract (cql : String) : Option String :=
  match breakOnL "<sql>".data cql.data with
  | none => none
  | some (_, tail) =>
    let seg : List Char :=
      match breakOnL "<sql>".data tail with
      | some (b, _) => b
      | none => tail
    let payload : List Char :=
      match breakOnL "</sql>".data seg with
      | some (b, _) => b
      | none => seg
    some (String.mk (trimL payload))

/-- State threaded through the repair loop of `redshift_querys`
(redshift_utils.py lines 98-114): the current SQL text `q_s`, the current
statement id (`response['Id']`), the `QueryString`/`Status`/`Error` data of
the current `desc`, the polled status, and counters of
`execute_query_redshift` and `llm_debugger` calls made so far (the latter is
instrumentation used by the theorems). -/
structure RunSt where
  q_s : String
  rid : Nat
  descQ : String
  descE : String
  status : Status
  execK : Nat
  dbgK : Nat

/-- The loop state after one repair iteration (redshift_utils.py lines
99-111): the repaired SQL `q` becomes `q_s`, the resubmission's id becomes
the current statement, `desc` is refreshed from the first describe of the new
statement, and `status` from the polling loop. -/
def nextSt (env : RsEnv) (st : RunSt) (q : String) : RunSt :=
  { q_s := q, rid := env.execIds st.execK,
    descQ := (env.stmts (env.execIds st.execK)).queryString,
    descE := (env.stmts (env.execIds st.execK)).error,
    status := (env.stmts (env.execIds st.execK)).pollStatus,
    execK := st.execK + 1, dbgK := st.dbgK + 1 }

/-- redshift_utils.py lines 98-114, the repair loop
`while max_try > 0 and status == 'FAILED': ...`.  The fuel argument is the
remaining `max_try`; the result carries the final `max_try` together with the
final loop state.  A raise (the `IndexError` of the delimiter split) carries
the debugger-call count at the moment of the raise. -/
def repairLoop (env : RsEnv) : Nat → RunSt → Except (PyErr × Nat) (Nat × RunSt)
  | 0, st => .ok (0, st)
  | n + 1, st =>
    if st.status = Status.FAILED then
      match pySplitExtract (env.debug st.dbgK st.descQ st.descE) with
      | none => .error (.indexError, st.dbgK + 1)
      | some q =>
        if (nextSt env st q).status = Status.FINISHED then .ok (n, nextSt env st q)
        else repairLoop env n (nextSt env st q)
    else .ok (n + 1, st)

/-- redshift_utils.py lines 119-125, the result-fetch retry loop
`for _ in range(5): try: ... get_statement_result ... break except RNF: ...`.
`ok none` means all attempts raised `ResourceNotFoundException` and
`stmt_result` was never bound; a non-RNF client error propagates. -/
def fetchLoop (env : RsEnv) (rid : Nat) : Nat → Nat → Except PyErr (Option QueryResult)
  | 0, _ => .ok none
  | n + 1, k =>
    match env.fetch rid k with
    | .ok t => .ok (some t)
    | .rnf => fetchLoop env rid n (k + 1)
    | .err m => .error (.clientError m)

/-- redshift_utils.py lines 86-132: `redshift_querys q_s response ...` where
`rid` is `response['Id']`.  Returns the Python result — `(result_csv, q_s)`
or an uncaught exception — paired with the number of `llm_debugger`
invocations performed (instrumentation).  Control flow mirrors the source:
fast path via `get_statement_result`; on `ResourceNotFoundException`, poll,
run the repair loop with `max_try = 5`, and either return the exhaustion
sentinel (`max_try == 0 and status == 'FAILED'`) or fetch the final result;
referencing the never-bound `stmt_result` raises `UnboundLocalError`. -/
def redshift_querys (env : RsEnv) (q_s : String) (rid : Nat) :
    Except PyErr (String × String) × Nat :=
  match env.fetch rid 0 with
  | .ok t => (.ok (get_redshift_table_result t, q_s), 0)
  | .err m => (.error (.clientError m), 0)
  | .rnf =>
    let s0 := env.stmts rid
    let st0 : RunSt :=
      { q_s := q_s, rid := rid, descQ := s0.queryString, descE := s0.error,
        status := s0.pollStatus, execK := 0, dbgK := 0 }
    match repairLoop env 5 st0 with
    | .error (e, d) => (.error e, d)
    | .ok (mt, st) =>
      if mt = 0 ∧ st.status = Status.FAILED then
        (.ok ("DEBUGGING FAILED IN 5 ATTEMPTS. NO RESULT AVAILABLE", st.q_s), st.dbgK)
      else
        match fetchLoop env st.rid 5 1 with
        | .error e => (.error e, st.dbgK)
        | .ok none => (.error .unboundLocal, st.dbgK)
        | .ok (some t) => (.ok (get_redshift_table_result t, st.q_s), st.dbgK)

/-- A single `describe_statement` response as consumed by
`_wait_for_statement`: the `Status` field plus the optional `Error` field
read by `desc.get('Error', 'Unknown error')`. -/
structure DescR where
  status : Status
  error : Option String

/-- redshift_utils.py lines 43-55: `_wait_for_statement` polls
`describe_statement` once a second until `FINISHED` (returns the describe
response), raises `RuntimeError(desc.get('Error', 'Unknown error'))` on
`FAILED`/`ABORTED`, and raises `TimeoutError` once the wall-clock budget is
exceeded.  `descAt k` is the k-th describe response; the elapsed-time check
is modelled by fuel (one unit per 1s poll iteration). -/
def wait_for_statement (descAt : Nat → DescR) : Nat → Nat → Except PyErr DescR
  | 0, _ => .error .timeoutError
  | fuel + 1, k =>
    let d := descAt k
    match d.status with
    | .FINISHED => .ok d
    | .FAILED => .error (.runtimeError (d.error.getD "Unknown error"))
    | .ABORTED => .error (.runtimeError (d.error.getD "Unknown error"))
    | _ => wait_for_statement descAt fuel (k + 1)

/-- One entry of the finished batch describe's `SubStatements` list
(redshift_utils.py lines 65-69): `sub.get('Status')`,
`sub.get('Error', 'Unknown error')`, and the `get_statement_result` payload
for `sub['Id']`. -/
structure SubStmt where
  status : Option Status
  error : Option String
  result : QueryResult

/-- The connection dictionary: Python's `'ClusterIdentifier' in conn_param` /
`'WorkgroupName' in conn_param` are `Option.isSome` tests. -/
structure ConnParam where
  clusterIdentifier : Option String
  workgroupName : Option String

structure PagEnv where
  /-- describe polls of the batch statement submitted by
  `batch_execute_statement` -/
  batchDesc : Nat → DescR
  /-- the `SubStatements` of the finished batch describe -/
  subStatements : List SubStmt
  /-- describe polls of the i-th sequentially submitted statement -/
  stmtDesc : Nat → Nat → DescR
  /-- the `get_statement_result` payload of the i-th sequential statement -/
  stmtResult : Nat → QueryResult

/-- redshift_utils.py lines 65-69: iterate the substatements in order,
raising `RuntimeError` at the first one whose status is `FAILED`, otherwise
fetching and rendering its result. -/
def processSubs : List SubStmt → Except PyErr (List String)
  | [] => .ok []
  | sub :: rest =>
    if sub.status = some Status.FAILED then
      .error (.runtimeError (sub.error.getD "Unknown error"))
    else
      match processSubs rest with
      | .error e => .error e
      | .ok rs => .ok (get_redshift_table_result sub.result :: rs)

/-- redshift_utils.py lines 71-76: the serverless-workgroup path submits each
statement of `sql_list` in order and, for each, waits for completion and
fetches its result (`i` indexes the submissions). -/
def seqRun (env : PagEnv) (fuel : Nat) : List String → Nat → Except PyErr (List String)
  | [], _ => .ok []
  | _sql :: rest, i =>
    match wait_for_statement (env.stmtDesc i) fuel 0 with
    | .error e => .error e
    | .ok _ =>
      match seqRun env fuel rest (i + 1) with
      | .error e => .error e
      | .ok rs => .ok (get_redshift_table_result (env.stmtResult i) :: rs)

/-- redshift_utils.py lines 58-83: `execute_query_with_pagination`.  The
`except Exception: print(...); raise` wrapper re-raises unchanged and is
therefore transparent here.  A `ClusterIdentifier` takes the batch path, else
a `WorkgroupName` takes the sequential path, else `ValueError` is raised
before any statement is submitted (the result does not depend on `env`). -/
def execute_query_with_pagination (env : PagEnv) (sql_list : List String)
    (conn_param : ConnParam) (fuel : Nat) : Except PyErr (List String) :=
  if conn_param.clusterIdentifier.isSome then
    match wait_for_statement env.batchDesc fuel 0 with
    | .error e => .error e
    | .ok _ => processSubs env.subStatements
  else if conn_param.workgroupName.isSome then
    seqRun env fuel sql_list 0
  else
    .error (.valueError "connection_param requires ClusterIdentifier or WorkgroupName")

/-! ### langgraph_agent.py — tools, state merge, session load, retry loop -/

/-- langgraph_agent.py lines 141-142: the extraction
`re.search(r"<sql>(.*?)(?:</sql>|$)", response, re.DOTALL)` followed by
`.group(1).strip().replace("\\", "")`, with the whole `response` returned
when the regex does not match (no `<sql>` in the text).  The lazy group takes
everything after the first `<sql>` up to the first following `</sql>`, or to
the end of the text when no closing delimiter follows (the `$` alternative
may exclude one final newline, which `.strip()` removes anyway). -/
def regexSqlExtract (response : String) : String :=
  match breakOnL "<sql>".data response.data with
  | none => response
  | some (_, tail) =>
    let payload : List Char :=
      match breakOnL "</sql>".data tail with
      | some (b, _) => b
      | none => tail
    String.mk ((trimL payload).filter (fun c => !(c = '\\')))

/-- The test statement built by `quick_test_sql` (langgraph_agent.py lines
161-163): strip the query, then append `" LIMIT 1"` exactly when `"LIMIT"`
does not occur in the uppercased stripped text. -/
def builtTestQuery (sql_query : String) : String :=
  let test_query := pyStrip sql_query
  if occursS "LIMIT" (pyUpperS test_query) then test_query
  else test_query ++ " LIMIT 1"

/-- Environment of `quick_test_sql`: the outcome of the single
`execute_query_redshift` submission, plus the eventual asynchronous status of
the submitted statement.  The code never reads that status (it does not
poll), which the theorems express as independence from `finalStatus`. -/
structure QTEnv where
  submit : String → Except String Unit
  finalStatus : Status

/-- langgraph_agent.py lines 147-169: `quick_test_sql` submits the built test
statement and reports success purely on the submission call returning; any
exception is rendered as `"SQL Failed: ..."`. -/
def quick_test_sql (env : QTEnv) (sql_query : String) : String :=
  match env.submit (builtTestQuery sql_query) with
  | .ok _ => "SQL is valid ✓"
  | .error e => "SQL Failed: " ++ e

/-- A tool result message as seen by `tools_with_state_update`:
`name = none` models a message without a `name` attribute
(the `hasattr(msg, 'name')` guard). -/
structure ToolMsg where
  name : Option String
  content : String
deriving DecidableEq

/-- The `schema_info` / `sample_data` fields of the agent state
(the Context Cache). -/
structure AgentCache where
  schema_info : String
  sample_data : String
deriving DecidableEq

/-- The `updates` dictionary returned by `tools_with_state_update`. -/
structure ToolsUpdate where
  messages : List ToolMsg
  schema_info : String
  sample_data : String
deriving DecidableEq

/-- One iteration of the message scan in `tools_with_state_update`
(langgraph_agent.py lines 270-277). -/
def applyToolMsg (acc : AgentCache) (msg : ToolMsg) : AgentCache :=
  match msg.name with
  | some n =>
    if n = "get_database_schema" then { acc with schema_info := msg.content }
    else if n = "get_sample_data" then { acc with sample_data := msg.content }
    else acc
  | none => acc

/-- langgraph_agent.py lines 256-279: `tools_with_state_update` starts from
the prior state's `schema_info`/`sample_data`, scans the tool result messages
produced by the `ToolNode` invocation (passed in as `toolMessages`), and
overwrites a field only for a message named after the corresponding fetch
tool. -/
def tools_with_state_update (state : AgentCache) (toolMessages : List ToolMsg) :
    ToolsUpdate :=
  let updates := toolMessages.foldl applyToolMsg
    { schema_info := state.schema_info, sample_data := state.sample_data }
  { messages := toolMessages, schema_info := updates.schema_info,
    sample_data := updates.sample_data }

/-- The `values` attribute of a retrieved checkpoint, when the checkpoint is
truthy: the two cached fields, each possibly absent (`dict.get` default). -/
structure SavedVals where
  schema_info : Option String
  sample_data : Option String

/-- Outcome of `app.get_state(...)`: a checkpoint whose `values` may be
falsy/absent, or a raised exception (message only logged). -/
inductive GetStateRes where
  | ok (values : Option SavedVals)
  | exn (msg : String)

/-- langgraph_agent.py lines 334-353: `get_previous_state` never raises — a
lookup failure or a falsy checkpoint yields empty strings. -/
def get_previous_state (r : GetStateRes) : AgentCache :=
  match r with
  | .ok (some v) =>
    { schema_info := v.schema_info.getD "", sample_data := v.sample_data.getD "" }
  | .ok none => { schema_info := "", sample_data := "" }
  | .exn _ => { schema_info := "", sample_data := "" }

/-- Outcome of one `app.invoke(payload, config)` call: the final answer text
(`result["messages"][-1].content`), a `botocore.ClientError` with an error
code, or any other exception. -/
inductive InvOutcome where
  | ok (answer : String)
  | clientError (code : String)
  | otherError (msg : String)

structure InvEnv where
  /-- k-th `app.get_state` lookup made during this `invoke_agent` call -/
  load : Nat → GetStateRes
  /-- outcome of `app.invoke` at loop index `attempt` -/
  invokeApp : Nat → InvOutcome

/-- langgraph_agent.py lines 390-413: the retry loop
`for attempt in range(max_retries + 1)` with `max_retries = 3`.  Fuel is the
number of loop iterations left (4 at the top); `attempt` is the loop index;
`loadK` counts `get_previous_state` calls already made.  Returns the Python
outcome plus, as instrumentation, the Context-Cache part of the payload
passed to each `app.invoke` call and the list of back-off sleeps performed.
The `for`-`else` raise is the fuel-0 case. -/
def invokeLoop (env : InvEnv) :
    Nat → Nat → AgentCache → Nat → Except PyErr String × List AgentCache × List Nat
  | 0, _, _, _ => (.error (.runtimeError "retries exhausted"), [], [])
  | fuel + 1, attempt, payload, loadK =>
    match env.invokeApp attempt with
    | .ok ans => (.ok ans, [payload], [])
    | .clientError code =>
      if code = "ThrottlingException" then
        if attempt = 3 then (.error (.clientError code), [payload], [])
        else
          let wait := 2 ^ attempt + 1
          let next : AgentCache × Nat :=
            if attempt < 3 then (get_previous_state (env.load loadK), loadK + 1)
            else (payload, loadK)
          let r := invokeLoop env fuel (attempt + 1) next.1 next.2
          (r.1, payload :: r.2.1, wait :: r.2.2)
      else (.error (.clientError code), [payload], [])
    | .otherError m => (.error (.runtimeError m), [payload], [])

/-- Result of `invoke_agent`: outcome, per-attempt payload caches, sleeps. -/
structure InvResult where
  outcome : Except PyErr String
  attemptPayloads : List AgentCache
  sleeps : List Nat

/-- langgraph_agent.py lines 356-413: `invoke_agent`.  With
`reset_memory = False` the initial payload cache is loaded through
`get_previous_state` (the store lookup with index 0); with
`reset_memory = True` it is the empty cache and no lookup happens (`env.load`
is first consulted, if ever, only inside the retry loop). -/
def invoke_agent (env : InvEnv) (reset_memory : Bool) : InvResult :=
  let prev_state :=
    if reset_memory then { schema_info := "", sample_data := "" }
    else get_previous_state (env.load 0)
  let startLoadK := if reset_memory then 0 else 1
  let r := invokeLoop env 4 0 prev_state startLoadK
  { outcome := r.1, attemptPayloads := r.2.1, sleeps := r.2.2 }

/-! ### Lemmas about the string primitives -/

theorem isPre_decomp {t s : List Char} (h : isPre t s = true) : ∃ u, s = t ++ u := by
  induction t generalizing s with
  | nil => exact ⟨s, rfl⟩
  | cons a as ih =>
    cases s with
    | nil => simp [isPre] at h
    | cons b bs =>
      simp only [isPre, Bool.and_eq_true, decide_eq_true_eq] at h
      obtain ⟨rfl, h2⟩ := h
      obtain ⟨u, rfl⟩ := ih h2
      exact ⟨u, rfl⟩

theorem isPre_append_self (t u : List Char) : isPre t (t ++ u) = true := by
  induction t with
  | nil => rfl
  | cons a as ih => simpa [isPre] using ih

theorem breakOnL_decomp {sep : List Char} :
    ∀ {s b a : List Char}, breakOnL sep s = some (b, a) → s = b ++ sep ++ a := by
  intro s
  induction s with
  | nil => intro b a h; simp [breakOnL] at h
  | cons c cs ih =>
    intro b a h
    rw [breakOnL] at h
    split at h
    · next hc =>
      obtain ⟨u, hu⟩ := isPre_decomp hc.2
      simp only [Option.some.injEq, Prod.mk.injEq] at h
      obtain ⟨rfl, rfl⟩ := h
      rw [hu, List.drop_left, List.nil_append]
    · revert h
      cases hb : breakOnL sep cs with
      | none => intro h; cases h
      | some p =>
        cases p with
        | mk pb pa =>
          intro h
          simp only [Option.some.injEq, Prod.mk.injEq] at h
          obtain ⟨hb1, hb2⟩ := h
          subst hb1; subst hb2
          simpa using ih hb

theorem occursL_cons {t : List Char} {c : Char} {cs : List Char}
    (h : occursL t cs = true) : occursL t (c :: cs) = true := by
  unfold occursL at h ⊢
  rw [breakOnL]
  split
  · rfl
  · revert h
    cases hb : breakOnL t cs with
    | none => intro h; simp at h
    | some p => intro _; cases p; rfl

theorem occursL_append_right {t y : List Char} (x : List Char)
    (h : occursL t y = true) : occursL t (x ++ y) = true := by
  induction x with
  | nil => simpa using h
  | cons c cs ih => exact occursL_cons ih

theorem occursL_append_left {t x : List Char} (y : List Char)
    (h : occursL t x = true) : occursL t (x ++ y) = true := by
  induction x with
  | nil => simp [occursL, breakOnL] at h
  | cons c cs ih =>
    unfold occursL at h
    rw [breakOnL] at h
    revert h
    split
    · next hc =>
      intro _
      unfold occursL
      rw [List.cons_append, breakOnL]
      obtain ⟨u, hu⟩ := isPre_decomp hc.2
      have : isPre t (c :: cs ++ y) = true := by
        rw [hu, List.append_assoc]
        exact isPre_append_self t (u ++ y)
      simp only [List.cons_append] at this
      rw [if_pos ⟨hc.1, this⟩]
      rfl
    · intro h
      cases hb : breakOnL t cs with
      | none => rw [hb] at h; simp at h
      | some p =>
        have := ih (by unfold occursL; rw [hb]; rfl)
        exact occursL_cons this

theorem breakOnL_eq_none {t s : List Char} (h : occursL t s = false) :
    breakOnL t s = none := by
  unfold occursL at h
  exact Option.not_isSome_iff_eq_none.mp (by simp [h])

theorem not_occursL_right {t x y : List Char} (h : occursL t (x ++ y) = false) :
    occursL t y = false := by
  cases ho : occursL t y with
  | false => rfl
  | true => rw [occursL_append_right x ho] at h; cases h

theorem not_occursL_left {t x y : List Char} (h : occursL t (x ++ y) = false) :
    occursL t x = false := by
  cases ho : occursL t x with
  | false => rfl
  | true => rw [occursL_append_left y ho] at h; cases h

theorem occursL_iff_decomp {t s : List Char} (ht : t ≠ []) :
    occursL t s = true ↔ ∃ x y, s = x ++ t ++ y := by
  constructor
  · intro h
    unfold occursL at h
    cases hb : breakOnL t s with
    | none => rw [hb] at h; cases h
    | some p =>
      cases p with
      | mk b a => exact ⟨b, a, breakOnL_decomp hb⟩
  · rintro ⟨x, y, rfl⟩
    rw [List.append_assoc]
    apply occursL_append_right x
    cases t with
    | nil => exact absurd rfl ht
    | cons c cs =>
      unfold occursL
      rw [List.cons_append, breakOnL,
        if_pos ⟨ht, by simpa using isPre_append_self (c :: cs) y⟩]
      rfl

theorem occursL_reverse {t s : List Char} (ht : t ≠ []) :
    occursL t.reverse s.reverse = occursL t s := by
  have htr : t.reverse ≠ [] := by
    intro h
    exact ht (by simpa using congrArg List.reverse h)
  cases ho : occursL t s with
  | true =>
    obtain ⟨x, y, rfl⟩ := (occursL_iff_decomp ht).mp ho
    apply (occursL_iff_decomp htr).mpr
    exact ⟨y.reverse, x.reverse, by simp⟩
  | false =>
    cases hr : occursL t.reverse s.reverse with
    | false => rfl
    | true =>
      obtain ⟨x, y, hxy⟩ := (occursL_iff_decomp htr).mp hr
      have : s = y.reverse ++ t ++ x.reverse := by
        have := congrArg List.reverse hxy
        simpa [List.append_assoc] using this
      rw [(occursL_iff_decomp ht).mpr ⟨y.reverse, x.reverse, this⟩] at ho
      cases ho

theorem isWS_fix {f : Char → Char} (hf : ∀ c, isWS c = true → f c = c)
    {c : Char} (h : isWS c = true) : f c = c := hf c h

theorem occursL_map_dropWhile {pat : List Char} {f : Char → Char}
    (hpd : pat ≠ [])
    (hpat : ∀ p ∈ pat, isWS p = false)
    (hf : ∀ c, isWS c = true → f c = c) :
    ∀ s : List Char, occursL pat ((s.dropWhile isWS).map f) = occursL pat (s.map f) := by
  intro s
  induction s with
  | nil => rfl
  | cons c cs ih =>
    cases hw : isWS c with
    | false => simp [List.dropWhile_cons, hw]
    | true =>
      rw [List.dropWhile_cons, if_pos (by simp [hw])]
      rw [ih]
      rw [List.map_cons]
      cases pat with
      | nil => exact absurd rfl hpd
      | cons p ps =>
        have hfc : f c = c := hf c hw
        have hnp : isPre (p :: ps) (f c :: cs.map f) = false := by
          simp only [isPre, Bool.and_eq_false_iff, decide_eq_false_iff_not]
          left
          intro hpc
          have : isWS p = false := hpat p (by simp)
          rw [hpc, hfc] at this
          rw [hw] at this
          cases this
        unfold occursL
        rw [breakOnL, if_neg (by simp [hnp])]
        cases hb : breakOnL (p :: ps) (cs.map f) with
        | none => rfl
        | some q => cases q; rfl

theorem occursL_map_trim {pat : List Char} {f : Char → Char}
    (hpd : pat ≠ [])
    (hpat : ∀ p ∈ pat, isWS p = false)
    (hf : ∀ c, isWS c = true → f c = c) :
    ∀ s : List Char, occursL pat ((trimL s).map f) = occursL pat (s.map f) := by
  intro s
  have hpatr : ∀ p ∈ pat.reverse, isWS p = false := by
    intro p hp; exact hpat p (by simpa using hp)
  have hpdr : pat.reverse ≠ [] := by
    intro h; exact hpd (by simpa using congrArg List.reverse h)
  have h1 : occursL pat (((s.dropWhile isWS).reverse.dropWhile isWS).map f).reverse
      = occursL pat.reverse (((s.dropWhile isWS).reverse.dropWhile isWS).map f) := by
    have := @occursL_reverse pat.reverse
      (((s.dropWhile isWS).reverse.dropWhile isWS).map f) hpdr
    simpa using this
  have h2 : occursL pat.reverse (((s.dropWhile isWS).reverse.dropWhile isWS).map f)
      = occursL pat.reverse (((s.dropWhile isWS).reverse).map f) :=
    occursL_map_dropWhile hpdr hpatr hf ((s.dropWhile isWS).reverse)
  have h3 : occursL pat.reverse (((s.dropWhile isWS).reverse).map f)
      = occursL pat (((s.dropWhile isWS)).map f) := by
    have := @occursL_reverse pat ((s.dropWhile isWS).map f) hpd
    rw [← this, List.map_reverse]
  have h4 : occursL pat (((s.dropWhile isWS)).map f) = occursL pat (s.map f) :=
    occursL_map_dropWhile hpd hpat hf s
  calc occursL pat ((trimL s).map f)
      = occursL pat (((s.dropWhile isWS).reverse.dropWhile isWS).map f).reverse := by
        unfold trimL; rw [List.map_reverse]
    _ = occursL pat.reverse (((s.dropWhile isWS).reverse.dropWhile isWS).map f) := h1
    _ = occursL pat.reverse (((s.dropWhile isWS).reverse).map f) := h2
    _ = occursL pat (((s.dropWhile isWS)).map f) := h3
    _ = occursL pat (s.map f) := h4

/-! ### Lemmas about the self-correcting runner -/

theorem nextSt_dbgK (env : RsEnv) (st : RunSt) (q : String) :
    (nextSt env st q).dbgK = st.dbgK + 1 := rfl

theorem repairLoop_ok_dbg (env : RsEnv) :
    ∀ (n : Nat) (st : RunSt) (mt : Nat) (st' : RunSt),
      repairLoop env n st = .ok (mt, st') → st'.dbgK ≤ st.dbgK + n := by
  intro n
  induction n with
  | zero =>
    intro st mt st' h
    rw [repairLoop] at h
    simp only [Except.ok.injEq, Prod.mk.injEq] at h
    rw [← h.2]
    omega
  | succ n ih =>
    intro st mt st' h
    rw [repairLoop] at h
    by_cases hst : st.status = Status.FAILED
    · rw [if_pos hst] at h
      cases hq : pySplitExtract (env.debug st.dbgK st.descQ st.descE) with
      | none => rw [hq] at h; cases h
      | some q =>
        simp only [hq] at h
        by_cases hfin : (nextSt env st q).status = Status.FINISHED
        · rw [if_pos hfin] at h
          simp only [Except.ok.injEq, Prod.mk.injEq] at h
          rw [← h.2, nextSt_dbgK]
          omega
        · rw [if_neg hfin] at h
          have := ih (nextSt env st q) mt st' h
          rw [nextSt_dbgK] at this
          omega
    · rw [if_neg hst] at h
      simp only [Except.ok.injEq, Prod.mk.injEq] at h
      rw [← h.2]
      omega

theorem repairLoop_err_dbg (env : RsEnv) :
    ∀ (n : Nat) (st : RunSt) (e : PyErr) (d : Nat),
      repairLoop env n st = .error (e, d) → d ≤ st.dbgK + n := by
  intro n
  induction n with
  | zero =>
    intro st e d h
    rw [repairLoop] at h
    cases h
  | succ n ih =>
    intro st e d h
    rw [repairLoop] at h
    by_cases hst : st.status = Status.FAILED
    · rw [if_pos hst] at h
      cases hq : pySplitExtract (env.debug st.dbgK st.descQ st.descE) with
      | none =>
        rw [hq] at h
        simp only [Except.error.injEq, Prod.mk.injEq] at h
        rw [← h.2]
        omega
      | some q =>
        simp only [hq] at h
        by_cases hfin : (nextSt env st q).status = Status.FINISHED
        · rw [if_pos hfin] at h; cases h
        · rw [if_neg hfin] at h
          have := ih (nextSt env st q) e d h
          rw [nextSt_dbgK] at this
          omega
    · rw [if_neg hst] at h
      cases h

theorem repairLoop_exhaust (env : RsEnv)
    (hpoll : ∀ k, (env.stmts (env.execIds k)).pollStatus = Status.FAILED)
    (hex : ∀ k b e, (pySplitExtract (env.debug k b e)).isSome = true) :
    ∀ (n : Nat) (st : RunSt), st.status = Status.FAILED →
      ∃ st', repairLoop env n st = .ok (0, st') ∧
        st'.dbgK = st.dbgK + n ∧ st'.status = Status.FAILED := by
  intro n
  induction n with
  | zero =>
    intro st hst
    exact ⟨st, by rw [repairLoop], by omega, hst⟩
  | succ n ih =>
    intro st hst
    cases hq : pySplitExtract (env.debug st.dbgK st.descQ st.descE) with
    | none =>
      have := hex st.dbgK st.descQ st.descE
      rw [hq] at this
      cases this
    | some q =>
      have hstat : (nextSt env st q).status = Status.FAILED := hpoll st.execK
      have hnf : ¬ (nextSt env st q).status = Status.FINISHED := by
        rw [hstat]; intro hc; cases hc
      obtain ⟨st', h1, h2, h3⟩ := ih (nextSt env st q) hstat
      refine ⟨st', ?_, ?_, h3⟩
      · rw [repairLoop, if_pos hst]
        simp only [hq]
        rw [if_neg hnf]
        exact h1
      · rw [h2, nextSt_dbgK]
        omega

theorem fetchLoop_all_rnf (env : RsEnv) (rid : Nat) :
    ∀ (n k : Nat), (∀ j, k ≤ j → j < k + n → env.fetch rid j = FetchR.rnf) →
      fetchLoop env rid n k = .ok none := by
  intro n
  induction n with
  | zero => intro k _; rw [fetchLoop]
  | succ n ih =>
    intro k h
    rw [fetchLoop]
    have h0 : env.fetch rid k = FetchR.rnf := h k (Nat.le_refl k) (by omega)
    simp only [h0]
    exact ih (k + 1) (fun j hj1 hj2 => h j (by omega) (by omega))

/-! ### Lemmas about the turn-level retry loop -/

theorem invokeLoop_len (env : InvEnv) :
    ∀ (fuel attempt : Nat) (payload : AgentCache) (loadK : Nat),
      ((invokeLoop env fuel attempt payload loadK).2.1).length ≤ fuel := by
  intro fuel
  induction fuel with
  | zero => intro attempt payload loadK; rw [invokeLoop]; simp
  | succ fuel ih =>
    intro attempt payload loadK
    cases hi : env.invokeApp attempt with
    | ok ans => simp [invokeLoop, hi]
    | clientError code =>
      by_cases hc : code = "ThrottlingException"
      · by_cases ha : attempt = 3
        · subst ha; simp [invokeLoop, hi, hc]
        · simp only [invokeLoop, hi]
          rw [if_pos hc, if_neg ha]
          simp only [List.length_cons]
          have := ih (attempt + 1)
            (if attempt < 3 then (get_previous_state (env.load loadK), loadK + 1)
             else (payload, loadK)).1
            (if attempt < 3 then (get_previous_state (env.load loadK), loadK + 1)
             else (payload, loadK)).2
          omega
      · simp [invokeLoop, hi, hc]
    | otherError m => simp [invokeLoop, hi]

theorem invokeLoop_head (env : InvEnv) :
    ∀ (fuel attempt : Nat) (payload : AgentCache) (loadK : Nat),
      ((invokeLoop env (fuel + 1) attempt payload loadK).2.1).get? 0 = some payload := by
  intro fuel attempt payload loadK
  cases hi : env.invokeApp attempt with
  | ok ans => simp [invokeLoop, hi]
  | clientError code =>
    by_cases hc : code = "ThrottlingException"
    · by_cases ha : attempt = 3
      · subst ha; simp [invokeLoop, hi, hc]
      · simp only [invokeLoop, hi]
        rw [if_pos hc, if_neg ha]
        rfl
    · simp [invokeLoop, hi, hc]
  | otherError m => simp [invokeLoop, hi]

theorem invokeLoop_sleeps (env : InvEnv) :
    ∀ (fuel attempt : Nat) (payload : AgentCache) (loadK : Nat) (j w : Nat),
      ((invokeLoop env fuel attempt payload loadK).2.2).get? j = some w →
      w = 2 ^ (attempt + j) + 1 := by
  intro fuel
  induction fuel with
  | zero =>
    intro attempt payload loadK j w h
    rw [invokeLoop] at h
    simp at h
  | succ fuel ih =>
    intro attempt payload loadK j w h
    cases hi : env.invokeApp attempt with
    | ok ans => simp [invokeLoop, hi] at h
    | clientError code =>
      by_cases hc : code = "ThrottlingException"
      · by_cases ha : attempt = 3
        · subst ha; simp [invokeLoop, hi, hc] at h
        · simp only [invokeLoop, hi] at h
          rw [if_pos hc, if_neg ha] at h
          cases j with
          | zero =>
            simp only [List.get?_cons_zero, Option.some.injEq] at h
            show w = 2 ^ attempt + 1
            omega
          | succ j =>
            simp only [List.get?_cons_succ] at h
            have hw := ih (attempt + 1) _ _ j w h
            have harr : attempt + 1 + j = attempt + (j + 1) := by omega
            rw [harr] at hw
            exact hw
      · simp [invokeLoop, hi, hc] at h
    | otherError m => simp [invokeLoop, hi] at h

/-! ### Claim theorems -/

/-- C1: for every execution of the self-correcting runner, at most 5 repair
attempts happen — the `llm_debugger` invocation count of any run of
`redshift_querys` is at most 5, so a 6th debugger call never happens — and
for every execution whose polled status is FAILED throughout (budget
exhausted while still FAILED), the runner returns normally (no exception) the
sentinel string "DEBUGGING FAILED IN 5 ATTEMPTS. NO RESULT AVAILABLE", which
ends in "NO RESULT AVAILABLE", instead of a result table, with exactly 5
debugger calls. -/
theorem C1_retry_budget_and_sentinel :
    (∀ (env : RsEnv) (q : String) (rid : Nat), (redshift_querys env q rid).2 ≤ 5) ∧
    (∀ (env : RsEnv) (q : String) (rid : Nat),
      env.fetch rid 0 = FetchR.rnf →
      (env.stmts rid).pollStatus = Status.FAILED →
      (∀ k, (env.stmts (env.execIds k)).pollStatus = Status.FAILED) →
      (∀ k b e, (pySplitExtract (env.debug k b e)).isSome = true) →
      ∃ s pre, redshift_querys env q rid =
          (.ok ("DEBUGGING FAILED IN 5 ATTEMPTS. NO RESULT AVAILABLE", s), 5) ∧
        "DEBUGGING FAILED IN 5 ATTEMPTS. NO RESULT AVAILABLE" =
          pre ++ "NO RESULT AVAILABLE") := by
  constructor
  · intro env q rid
    cases hf : env.fetch rid 0 with
    | ok t => simp [redshift_querys, hf]
    | err m => simp [redshift_querys, hf]
    | rnf =>
      simp only [redshift_querys, hf]
      split
      · next e d heq =>
        have := repairLoop_err_dbg env 5 _ e d heq
        simpa using this
      · next mt st heq =>
        have := repairLoop_ok_dbg env 5 _ mt st heq
        split
        · simpa using this
        · split
          · simpa using this
          · simpa using this
          · simpa using this
  · intro env q rid hf hpoll0 hpoll hex
    obtain ⟨st', h1, h2, h3⟩ := repairLoop_exhaust env hpoll hex 5
      ⟨q, rid, (env.stmts rid).queryString, (env.stmts rid).error,
        (env.stmts rid).pollStatus, 0, 0⟩ hpoll0
    refine ⟨st'.q_s, "DEBUGGING FAILED IN 5 ATTEMPTS. ", ?_, rfl⟩
    simp only [redshift_querys, hf, h1]
    rw [if_pos ⟨trivial, h3⟩]
    have h5 : st'.dbgK = 5 := by simpa using h2
    rw [h5]

/-- C2: a statement that succeeds without any FAILED status being observed
returns the input SQL text unchanged as the second component, with zero
repair attempts: (a) on the fast path, where `get_statement_result` succeeds
immediately, the result is the rendered table paired with the input SQL; (b)
on the slow path, where the first fetch raises ResourceNotFound and polling
ends in FINISHED, no debugger call is made and any normal return carries the
input SQL unchanged. -/
theorem C2_success_returns_input_sql :
    (∀ (env : RsEnv) (q : String) (rid : Nat) (t : QueryResult),
      env.fetch rid 0 = FetchR.ok t →
      redshift_querys env q rid = (.ok (get_redshift_table_result t, q), 0)) ∧
    (∀ (env : RsEnv) (q : String) (rid : Nat),
      env.fetch rid 0 = FetchR.rnf →
      (env.stmts rid).pollStatus = Status.FINISHED →
      (redshift_querys env q rid).2 = 0 ∧
      ∀ r s, (redshift_querys env q rid).1 = .ok (r, s) → s = q) := by
  constructor
  · intro env q rid t hf
    simp [redshift_querys, hf]
  · intro env q rid hf hfin
    have hloop : repairLoop env 5
        ⟨q, rid, (env.stmts rid).queryString, (env.stmts rid).error,
          (env.stmts rid).pollStatus, 0, 0⟩ =
        .ok (5, ⟨q, rid, (env.stmts rid).queryString, (env.stmts rid).error,
          (env.stmts rid).pollStatus, 0, 0⟩) := by
      rw [repairLoop]
      rw [if_neg (by show ¬ (env.stmts rid).pollStatus = Status.FAILED
                     rw [hfin]; intro hc; cases hc)]
    constructor
    · simp only [redshift_querys, hf, hloop]
      rw [if_neg (by intro hc; cases hc.1)]
      split
      · rfl
      · rfl
      · rfl
    · intro r s h
      simp only [redshift_querys, hf, hloop] at h
      rw [if_neg (by intro hc; cases hc.1)] at h
      revert h
      split
      · intro h; cases h
      · intro h; cases h
      · next t heq =>
        intro h
        simp only [Except.ok.injEq, Prod.mk.injEq] at h
        exact h.2.symm

/-- C10: the slow path of `redshift_querys` is not total: (i) the repair loop
runs only when the polled status is exactly FAILED — for any other terminal
status no debugger call is made; (ii) if polling ends in ABORTED the function
goes on to fetch the result of that very (aborted) statement, and a
non-ResourceNotFound exception raised by that fetch propagates to the caller;
(iii) if the status is not FAILED and all 5 result-fetch retries raise
ResourceNotFound, the local `stmt_result` is never bound and the function
raises (UnboundLocalError) instead of returning a `(result, sql)` pair. -/
theorem C10_slow_path_partiality :
    (∀ (env : RsEnv) (q : String) (rid : Nat),
      env.fetch rid 0 = FetchR.rnf →
      (env.stmts rid).pollStatus ≠ Status.FAILED →
      (redshift_querys env q rid).2 = 0) ∧
    (∀ (env : RsEnv) (q : String) (rid : Nat) (m : String),
      env.fetch rid 0 = FetchR.rnf →
      (env.stmts rid).pollStatus = Status.ABORTED →
      env.fetch rid 1 = FetchR.err m →
      (redshift_querys env q rid).1 = .error (.clientError m)) ∧
    (∀ (env : RsEnv) (q : String) (rid : Nat),
      env.fetch rid 0 = FetchR.rnf →
      (env.stmts rid).pollStatus ≠ Status.FAILED →
      (∀ k, 1 ≤ k → k ≤ 5 → env.fetch rid k = FetchR.rnf) →
      (redshift_querys env q rid).1 = .error PyErr.unboundLocal) := by
  have hloop : ∀ (env : RsEnv) (q : String) (rid : Nat),
      (env.stmts rid).pollStatus ≠ Status.FAILED →
      repairLoop env 5
        ⟨q, rid, (env.stmts rid).queryString, (env.stmts rid).error,
          (env.stmts rid).pollStatus, 0, 0⟩ =
      .ok (5, ⟨q, rid, (env.stmts rid).queryString, (env.stmts rid).error,
          (env.stmts rid).pollStatus, 0, 0⟩) := by
    intro env q rid hne
    rw [repairLoop]
    rw [if_neg hne]
  refine ⟨?_, ?_, ?_⟩
  · intro env q rid hf hne
    simp only [redshift_querys, hf, hloop env q rid hne]
    rw [if_neg (by intro hc; cases hc.1)]
    split
    · rfl
    · rfl
    · rfl
  · intro env q rid m hf hab hfetch
    have hne : (env.stmts rid).pollStatus ≠ Status.FAILED := by
      rw [hab]; intro hc; cases hc
    simp only [redshift_querys, hf, hloop env q rid hne]
    rw [if_neg (by intro hc; cases hc.1)]
    have hfl : fetchLoop env rid 5 1 = .error (.clientError m) := by
      rw [fetchLoop]
      simp only [hfetch]
    simp only [hfl]
  · intro env q rid hf hne hall
    simp only [redshift_querys, hf, hloop env q rid hne]
    rw [if_neg (by intro hc; cases hc.1)]
    have hfl : fetchLoop env rid 5 1 = .ok none :=
      fetchLoop_all_rnf env rid 5 1 (fun j hj1 hj2 => hall j hj1 (by omega))
    simp only [hfl]

/-- Witness for C1: a concrete environment in which every poll returns FAILED
and the debugger always answers `<sql>SELECT 1</sql>`; the runner returns the
exhaustion sentinel with exactly 5 debugger calls. -/
theorem C1_witness :
    ∃ s pre, redshift_querys
        ⟨fun _ => ⟨"SELECT bad", "syntax error", Status.FAILED, Status.FAILED⟩,
          fun k => k + 1, fun _ _ _ => "<sql>SELECT 1</sql>", fun _ _ => FetchR.rnf⟩
        "SELECT orig" 0 =
        (.ok ("DEBUGGING FAILED IN 5 ATTEMPTS. NO RESULT AVAILABLE", s), 5) ∧
      "DEBUGGING FAILED IN 5 ATTEMPTS. NO RESULT AVAILABLE" =
        pre ++ "NO RESULT AVAILABLE" :=
  C1_retry_budget_and_sentinel.2 _ "SELECT orig" 0 rfl rfl (fun _ => rfl)
    (fun _ _ _ => rfl)

/-- Witness for C2: a fast-path environment (result immediately retrievable)
and a slow-path environment (first fetch raises ResourceNotFound, polling
ends FINISHED); in both the input SQL survives and no repair happens. -/
theorem C2_witness :
    redshift_querys
        ⟨fun _ => ⟨"", "", Status.FINISHED, Status.FINISHED⟩, fun k => k + 1,
          fun _ _ _ => "", fun _ _ => FetchR.ok ⟨["a"], [["1"]]⟩⟩
        "SELECT 1" 0 =
      (.ok (get_redshift_table_result ⟨["a"], [["1"]]⟩, "SELECT 1"), 0) ∧
    (redshift_querys
        ⟨fun _ => ⟨"", "", Status.STARTED, Status.FINISHED⟩, fun k => k + 1,
          fun _ _ _ => "",
          fun _ k => if k = 0 then FetchR.rnf else FetchR.ok ⟨["a"], [["1"]]⟩⟩
        "SELECT 2" 0).2 = 0 :=
  by
  constructor
  · exact C2_success_returns_input_sql.1 _ "SELECT 1" 0 ⟨["a"], [["1"]]⟩ rfl
  · exact (C2_success_returns_input_sql.2
      ⟨fun _ => ⟨"", "", Status.STARTED, Status.FINISHED⟩, fun k => k + 1,
        fun _ _ _ => "",
        fun _ k => if k = 0 then FetchR.rnf else FetchR.ok ⟨["a"], [["1"]]⟩⟩
      "SELECT 2" 0 rfl rfl).1

/-- Witness for C10: with polling ending ABORTED and a ValidationException on
the result fetch the error propagates; with a FINISHED status but all fetches
raising ResourceNotFound the run ends in UnboundLocalError. -/
theorem C10_witness :
    (redshift_querys
        ⟨fun _ => ⟨"", "", Status.ABORTED, Status.ABORTED⟩, fun k => k + 1,
          fun _ _ _ => "",
          fun _ k => if k = 0 then FetchR.rnf else FetchR.err "ValidationException"⟩
        "q" 0).1 = .error (.clientError "ValidationException") ∧
    (redshift_querys
        ⟨fun _ => ⟨"", "", Status.FINISHED, Status.FINISHED⟩, fun k => k + 1,
          fun _ _ _ => "", fun _ _ => FetchR.rnf⟩
        "q" 0).1 = .error PyErr.unboundLocal :=
  by
  constructor
  · exact C10_slow_path_partiality.2.1 _ "q" 0 "ValidationException" rfl rfl rfl
  · exact C10_slow_path_partiality.2.2
      ⟨fun _ => ⟨"", "", Status.FINISHED, Status.FINISHED⟩, fun k => k + 1,
        fun _ _ _ => "", fun _ _ => FetchR.rnf⟩
      "q" 0 rfl (fun hc => by cases hc) (fun _ _ _ => rfl)

theorem invokeLoop_payloads (env : InvEnv) :
    ∀ (fuel attempt : Nat) (payload : AgentCache) (loadK : Nat),
      attempt + fuel ≤ 4 →
      ∀ (j : Nat) (c : AgentCache),
        ((invokeLoop env fuel attempt payload loadK).2.1).get? (j + 1) = some c →
        c = get_previous_state (env.load (loadK + j)) := by
  intro fuel
  induction fuel with
  | zero =>
    intro attempt payload loadK _ j c h
    rw [invokeLoop] at h
    simp at h
  | succ fuel ih =>
    intro attempt payload loadK hle j c h
    cases hi : env.invokeApp attempt with
    | ok ans => simp [invokeLoop, hi] at h
    | clientError code =>
      by_cases hc : code = "ThrottlingException"
      · by_cases ha : attempt = 3
        · subst ha; simp [invokeLoop, hi, hc] at h
        · simp only [invokeLoop, hi] at h
          rw [if_pos hc, if_neg ha] at h
          have h3 : attempt < 3 := by omega
          rw [if_pos h3] at h
          simp only [List.get?_cons_succ] at h
          cases j with
          | zero =>
            cases fuel with
            | zero => rw [invokeLoop] at h; simp at h
            | succ fuel2 =>
              rw [invokeLoop_head] at h
              simp only [Option.some.injEq] at h
              show c = get_previous_state (env.load loadK)
              exact h.symm
          | succ j =>
            have hc2 := ih (attempt + 1) _ (loadK + 1) (by omega) j c h
            have harr : loadK + 1 + j = loadK + (j + 1) := by omega
            rw [harr] at hc2
            exact hc2
      · simp [invokeLoop, hi, hc] at h
    | otherError m => simp [invokeLoop, hi] at h

theorem processSubs_fail :
    ∀ (subs : List SubStmt), (∃ sub ∈ subs, sub.status = some Status.FAILED) →
      ∃ e, processSubs subs = .error e := by
  intro subs
  induction subs with
  | nil => rintro ⟨sub, hmem, _⟩; cases hmem
  | cons s rest ih =>
    rintro ⟨sub, hmem, hfail⟩
    by_cases hs : s.status = some Status.FAILED
    · exact ⟨.runtimeError (s.error.getD "Unknown error"), by rw [processSubs, if_pos hs]⟩
    · have hmem2 : sub ∈ rest := by
        rcases List.mem_cons.mp hmem with rfl | hm
        · exact absurd hfail hs
        · exact hm
      obtain ⟨e, he⟩ := ih ⟨sub, hmem2, hfail⟩
      refine ⟨e, ?_⟩
      rw [processSubs, if_neg hs]
      simp only [he]

theorem applyToolMsg_schema_frame (acc : AgentCache) (m : ToolMsg)
    (h : m.name ≠ some "get_database_schema") :
    (applyToolMsg acc m).schema_info = acc.schema_info := by
  cases hm : m.name with
  | none => simp [applyToolMsg, hm]
  | some n =>
    by_cases h1 : n = "get_database_schema"
    · exact absurd (by rw [hm, h1]) h
    · by_cases h2 : n = "get_sample_data"
      · simp [applyToolMsg, hm, h1, h2]
      · simp [applyToolMsg, hm, h1, h2]

theorem applyToolMsg_sample_frame (acc : AgentCache) (m : ToolMsg)
    (h : m.name ≠ some "get_sample_data") :
    (applyToolMsg acc m).sample_data = acc.sample_data := by
  cases hm : m.name with
  | none => simp [applyToolMsg, hm]
  | some n =>
    by_cases h1 : n = "get_database_schema"
    · simp [applyToolMsg, hm, h1]
    · by_cases h2 : n = "get_sample_data"
      · exact absurd (by rw [hm, h2]) h
      · simp [applyToolMsg, hm, h1, h2]

theorem applyToolMsg_schema_set (acc : AgentCache) (m : ToolMsg)
    (h : m.name = some "get_database_schema") :
    (applyToolMsg acc m).schema_info = m.content := by
  simp [applyToolMsg, h]

theorem applyToolMsg_sample_set (acc : AgentCache) (m : ToolMsg)
    (h : m.name = some "get_sample_data") :
    (applyToolMsg acc m).sample_data = m.content := by
  have hne : ¬ ("get_sample_data" = "get_database_schema") := by decide
  simp [applyToolMsg, h, hne]

theorem foldl_schema_frame :
    ∀ (msgs : List ToolMsg) (acc : AgentCache),
      (∀ m ∈ msgs, m.name ≠ some "get_database_schema") →
      (msgs.foldl applyToolMsg acc).schema_info = acc.schema_info := by
  intro msgs
  induction msgs with
  | nil => intro acc _; rfl
  | cons m ms ih =>
    intro acc h
    rw [List.foldl_cons]
    rw [ih (applyToolMsg acc m) (fun x hx => h x (List.mem_cons_of_mem m hx))]
    exact applyToolMsg_schema_frame acc m (h m (List.mem_cons_self m ms))

theorem foldl_sample_frame :
    ∀ (msgs : List ToolMsg) (acc : AgentCache),
      (∀ m ∈ msgs, m.name ≠ some "get_sample_data") →
      (msgs.foldl applyToolMsg acc).sample_data = acc.sample_data := by
  intro msgs
  induction msgs with
  | nil => intro acc _; rfl
  | cons m ms ih =>
    intro acc h
    rw [List.foldl_cons]
    rw [ih (applyToolMsg acc m) (fun x hx => h x (List.mem_cons_of_mem m hx))]
    exact applyToolMsg_sample_frame acc m (h m (List.mem_cons_self m ms))

theorem foldl_schema_source :
    ∀ (msgs : List ToolMsg) (acc : AgentCache),
      (msgs.foldl applyToolMsg acc).schema_info = acc.schema_info ∨
      ∃ m ∈ msgs, m.name = some "get_database_schema" ∧
        (msgs.foldl applyToolMsg acc).schema_info = m.content := by
  intro msgs
  induction msgs with
  | nil => intro acc; left; rfl
  | cons m ms ih =>
    intro acc
    rw [List.foldl_cons]
    rcases ih (applyToolMsg acc m) with h | ⟨m2, hm2, hname, hval⟩
    · by_cases hn : m.name = some "get_database_schema"
      · right
        refine ⟨m, List.mem_cons_self m ms, hn, ?_⟩
        rw [h]
        exact applyToolMsg_schema_set acc m hn
      · left
        rw [h]
        exact applyToolMsg_schema_frame acc m hn
    · right
      exact ⟨m2, List.mem_cons_of_mem m hm2, hname, hval⟩

theorem foldl_sample_source :
    ∀ (msgs : List ToolMsg) (acc : AgentCache),
      (msgs.foldl applyToolMsg acc).sample_data = acc.sample_data ∨
      ∃ m ∈ msgs, m.name = some "get_sample_data" ∧
        (msgs.foldl applyToolMsg acc).sample_data = m.content := by
  intro msgs
  induction msgs with
  | nil => intro acc; left; rfl
  | cons m ms ih =>
    intro acc
    rw [List.foldl_cons]
    rcases ih (applyToolMsg acc m) with h | ⟨m2, hm2, hname, hval⟩
    · by_cases hn : m.name = some "get_sample_data"
      · right
        refine ⟨m, List.mem_cons_self m ms, hn, ?_⟩
        rw [h]
        exact applyToolMsg_sample_set acc m hn
      · left
        rw [h]
        exact applyToolMsg_sample_frame acc m hn
    · right
      exact ⟨m2, List.mem_cons_of_mem m hm2, hname, hval⟩

theorem occursS_LIMIT_strip (s : String) :
    occursS "LIMIT" (pyUpperS (pyStrip s)) = occursS "LIMIT" (pyUpperS s) := by
  show occursL "LIMIT".data ((trimL s.data).map toUpperCh)
      = occursL "LIMIT".data (s.data.map toUpperCh)
  apply occursL_map_trim
  · decide
  · decide
  · intro c h
    have hc : ((((c = ' ' ∨ c = '\t') ∨ c = '\n') ∨ c = '\r') ∨ c = '\x0b') ∨
        c = '\x0c' := by
      simpa [isWS] using h
    rcases hc with ((((rfl | rfl) | rfl) | rfl) | rfl) | rfl <;> decide

/-- C3: across an execution of the tool node, the cached `schema_info` /
`sample_data` fields are overwritten only by a result message of
`get_database_schema` / `get_sample_data` respectively; when the tool result
messages contain no message of the respective name (any other tool —
`generate_sql_with_context`, `quick_test_sql`, `query_existing_table`) both
fields keep their prior values. -/
theorem C3_cache_overwritten_only_by_fetch :
    ∀ (state : AgentCache) (msgs : List ToolMsg),
      ((∀ m ∈ msgs, m.name ≠ some "get_database_schema") →
        (tools_with_state_update state msgs).schema_info = state.schema_info) ∧
      ((∀ m ∈ msgs, m.name ≠ some "get_sample_data") →
        (tools_with_state_update state msgs).sample_data = state.sample_data) ∧
      ((tools_with_state_update state msgs).schema_info = state.schema_info ∨
        ∃ m ∈ msgs, m.name = some "get_database_schema" ∧
          (tools_with_state_update state msgs).schema_info = m.content) ∧
      ((tools_with_state_update state msgs).sample_data = state.sample_data ∨
        ∃ m ∈ msgs, m.name = some "get_sample_data" ∧
          (tools_with_state_update state msgs).sample_data = m.content) := by
  intro state msgs
  refine ⟨?_, ?_, ?_, ?_⟩
  · intro h
    exact foldl_schema_frame msgs ⟨state.schema_info, state.sample_data⟩ h
  · intro h
    exact foldl_sample_frame msgs ⟨state.schema_info, state.sample_data⟩ h
  · exact foldl_schema_source msgs ⟨state.schema_info, state.sample_data⟩
  · exact foldl_sample_source msgs ⟨state.schema_info, state.sample_data⟩

/-- Witness for C3: a tool message from `quick_test_sql` leaves both cached
fields untouched. -/
theorem C3_witness :
    (tools_with_state_update ⟨"S", "D"⟩
      [⟨some "quick_test_sql", "SQL is valid"⟩]).schema_info = "S" ∧
    (tools_with_state_update ⟨"S", "D"⟩
      [⟨some "quick_test_sql", "SQL is valid"⟩]).sample_data = "D" :=
  ⟨(C3_cache_overwritten_only_by_fetch ⟨"S", "D"⟩
      [⟨some "quick_test_sql", "SQL is valid"⟩]).1 (by decide),
    (C3_cache_overwritten_only_by_fetch ⟨"S", "D"⟩
      [⟨some "quick_test_sql", "SQL is valid"⟩]).2.1 (by decide)⟩

/-- C4 counterexample: on the malformed envelope `{}` (missing keys),
`query_llm` raises a `KeyError` instead of returning a diagnostic string, so
the claim that ALL completion adapter functions degrade to a diagnostic
string on a malformed envelope is false; only `qna_llm` does. -/
theorem C4_counterexample :
    query_llm (Json.obj []) = .error PyErr.keyError ∧
    qna_llm (Json.obj []) =
      .ok (.str "Unexpected response format: \x7b\x7d") :=
  ⟨rfl, rfl⟩

/-- C4 (amended): for every completion-service response whose envelope does
not have the expected nested shape (missing keys or empty content list, i.e.
a KeyError or IndexError in the lookup chain), `qna_llm` does not raise — it
returns the diagnostic string embedding the raw response — while `query_llm`
propagates the lookup error to its caller. -/
theorem C4_amended_adapter_malformed :
    ∀ (j : Json) (e : PyErr), extractResponseText j = .error e →
      (e = PyErr.keyError ∨ e = PyErr.indexError) →
      qna_llm j = .ok (.str ("Unexpected response format: " ++ pyRepr j)) ∧
      query_llm j = .error e := by
  intro j e he hke
  constructor
  · unfold qna_llm
    rw [he]
    rcases hke with rfl | rfl
    · rfl
    · rfl
  · unfold query_llm
    exact he

/-- Witness for C4: an envelope whose `output` lacks a `message` key. -/
theorem C4_witness :
    qna_llm (Json.obj [("output", Json.obj [])]) =
      .ok (.str ("Unexpected response format: "
        ++ pyRepr (Json.obj [("output", Json.obj [])]))) ∧
    query_llm (Json.obj [("output", Json.obj [])]) = .error PyErr.keyError :=
  C4_amended_adapter_malformed (Json.obj [("output", Json.obj [])])
    PyErr.keyError rfl (Or.inl rfl)

/-- C5: the connection-parameter shape selects the execution path of
`execute_query_with_pagination`: with a `ClusterIdentifier` the statements go
as one batch and the whole call raises if the batch wait fails or any
substatement has status FAILED; with only a `WorkgroupName` the call equals
the sequential submit/wait/fetch run `seqRun`; with neither key it raises a
configuration `ValueError`, independently of every statement oracle (no
statement is executed). -/
theorem C5_connection_shape_paths :
    ∀ (env : PagEnv) (sqls : List String) (conn : ConnParam) (fuel : Nat),
      (conn.clusterIdentifier.isSome = true →
        (∀ e, wait_for_statement env.batchDesc fuel 0 = .error e →
          execute_query_with_pagination env sqls conn fuel = .error e) ∧
        (∀ d, wait_for_statement env.batchDesc fuel 0 = .ok d →
          ∀ sub ∈ env.subStatements, sub.status = some Status.FAILED →
          ∃ e, execute_query_with_pagination env sqls conn fuel = .error e)) ∧
      (conn.clusterIdentifier.isSome = false → conn.workgroupName.isSome = true →
        execute_query_with_pagination env sqls conn fuel = seqRun env fuel sqls 0) ∧
      (conn.clusterIdentifier = none → conn.workgroupName = none →
        execute_query_with_pagination env sqls conn fuel =
          .error (.valueError
            "connection_param requires ClusterIdentifier or WorkgroupName")) := by
  intro env sqls conn fuel
  refine ⟨?_, ?_, ?_⟩
  · intro hcl
    constructor
    · intro e he
      unfold execute_query_with_pagination
      rw [if_pos hcl]
      simp only [he]
    · intro d hd sub hmem hfail
      obtain ⟨e, he⟩ := processSubs_fail env.subStatements ⟨sub, hmem, hfail⟩
      refine ⟨e, ?_⟩
      unfold execute_query_with_pagination
      rw [if_pos hcl]
      simp only [hd]
      exact he
  · intro hcl hwg
    unfold execute_query_with_pagination
    rw [if_neg (by rw [hcl]; intro hc; cases hc), if_pos hwg]
  · intro hcl hwg
    unfold execute_query_with_pagination
    rw [if_neg (by rw [hcl]; intro hc; cases hc)]
    rw [if_neg (by rw [hwg]; intro hc; cases hc)]

/-- Witness for C5: a failing substatement on the cluster path raises; a
workgroup-only connection takes the sequential path; an empty connection
raises the configuration error. -/
theorem C5_witness :
    (∃ e, execute_query_with_pagination
        ⟨fun _ => ⟨Status.FINISHED, none⟩,
          [⟨some Status.FAILED, some "boom", ⟨[], []⟩⟩],
          fun _ _ => ⟨Status.FINISHED, none⟩, fun _ => ⟨[], []⟩⟩
        ["SELECT 1"] ⟨some "cluster-1", none⟩ 1 = .error e) ∧
    execute_query_with_pagination
        ⟨fun _ => ⟨Status.FINISHED, none⟩, [],
          fun _ _ => ⟨Status.FINISHED, none⟩, fun _ => ⟨[], []⟩⟩
        ["SELECT 1"] ⟨none, some "wg-1"⟩ 1 =
      seqRun ⟨fun _ => ⟨Status.FINISHED, none⟩, [],
          fun _ _ => ⟨Status.FINISHED, none⟩, fun _ => ⟨[], []⟩⟩ 1 ["SELECT 1"] 0 ∧
    execute_query_with_pagination
        ⟨fun _ => ⟨Status.FINISHED, none⟩, [],
          fun _ _ => ⟨Status.FINISHED, none⟩, fun _ => ⟨[], []⟩⟩
        ["SELECT 1"] ⟨none, none⟩ 1 =
      .error (.valueError
        "connection_param requires ClusterIdentifier or WorkgroupName") := by
  refine ⟨?_, ?_, ?_⟩
  · exact (C5_connection_shape_paths _ ["SELECT 1"] ⟨some "cluster-1", none⟩ 1).1
      rfl |>.2 ⟨Status.FINISHED, none⟩ rfl ⟨some Status.FAILED, some "boom", ⟨[], []⟩⟩
      (List.mem_singleton.mpr rfl) rfl
  · exact (C5_connection_shape_paths _ ["SELECT 1"] ⟨none, some "wg-1"⟩ 1).2.1 rfl rfl
  · exact (C5_connection_shape_paths _ ["SELECT 1"] ⟨none, none⟩ 1).2.2 rfl rfl

/-- C6: the conversational entry point retries a throttled turn at most 3
times (at most 4 `app.invoke` calls); the a-th back-off sleep (retry attempt
a, counting from 0) lasts `2 ^ a + 1` seconds; with `reset_memory = False`
the Context Cache passed to every retry attempt is freshly reloaded from the
session store (`get_previous_state` of the next store lookup), not the
in-memory copy of the failed attempt; and a non-throttling client error stops
the loop immediately — its attempt is the last, no sleeps, the error is
re-raised. -/
theorem C6_throttling_retry_policy :
    ∀ (env : InvEnv) (reset : Bool),
      (invoke_agent env reset).attemptPayloads.length ≤ 4 ∧
      (∀ a w, (invoke_agent env reset).sleeps.get? a = some w → w = 2 ^ a + 1) ∧
      (reset = false → ∀ j c,
        (invoke_agent env reset).attemptPayloads.get? (j + 1) = some c →
        c = get_previous_state (env.load (j + 1))) ∧
      (∀ (fuel attempt : Nat) (payload : AgentCache) (loadK : Nat) (code : String),
        env.invokeApp attempt = .clientError code → code ≠ "ThrottlingException" →
        invokeLoop env (fuel + 1) attempt payload loadK =
          (.error (.clientError code), [payload], [])) := by
  intro env reset
  refine ⟨?_, ?_, ?_, ?_⟩
  · exact invokeLoop_len env 4 0 _ _
  · intro a w h
    have := invokeLoop_sleeps env 4 0 _ _ a w h
    rw [this]
    show 2 ^ (0 + a) + 1 = 2 ^ a + 1
    rw [Nat.zero_add]
  · intro hreset j c h
    subst hreset
    have h2 : ((invokeLoop env 4 0 (get_previous_state (env.load 0)) 1).2.1).get?
        (j + 1) = some c := h
    have := invokeLoop_payloads env 4 0 (get_previous_state (env.load 0)) 1
      (by omega) j c h2
    rw [this]
    have harr : 1 + j = j + 1 := by omega
    rw [harr]
  · intro fuel attempt payload loadK code hi hc
    simp [invokeLoop, hi, hc]

/-- Witness for C6: the first attempt throttles, the second succeeds; the
sleep is `2 ^ 0 + 1 = 2` seconds and the second attempt's payload equals a
fresh store load, not the initial one. -/
theorem C6_witness :
    (invoke_agent
        ⟨fun k => GetStateRes.ok (some ⟨some (if k = 0 then "S0" else "S1"),
            some (if k = 0 then "D0" else "D1")⟩),
          fun k => if k = 0 then InvOutcome.clientError "ThrottlingException"
            else InvOutcome.ok "answer"⟩ false).attemptPayloads.length ≤ 4 ∧
    (2 : Nat) = 2 ^ 0 + 1 ∧
    AgentCache.mk "S1" "D1" =
      get_previous_state
        ((⟨fun k => GetStateRes.ok (some ⟨some (if k = 0 then "S0" else "S1"),
            some (if k = 0 then "D0" else "D1")⟩),
          fun k => if k = 0 then InvOutcome.clientError "ThrottlingException"
            else InvOutcome.ok "answer"⟩ : InvEnv).load (0 + 1)) := by
  refine ⟨?_, ?_, ?_⟩
  · exact (C6_throttling_retry_policy
      ⟨fun k => GetStateRes.ok (some ⟨some (if k = 0 then "S0" else "S1"),
          some (if k = 0 then "D0" else "D1")⟩),
        fun k => if k = 0 then InvOutcome.clientError "ThrottlingException"
          else InvOutcome.ok "answer"⟩ false).1
  · exact (C6_throttling_retry_policy
      ⟨fun k => GetStateRes.ok (some ⟨some (if k = 0 then "S0" else "S1"),
          some (if k = 0 then "D0" else "D1")⟩),
        fun k => if k = 0 then InvOutcome.clientError "ThrottlingException"
          else InvOutcome.ok "answer"⟩ false).2.1 0 2 rfl
  · exact (C6_throttling_retry_policy
      ⟨fun k => GetStateRes.ok (some ⟨some (if k = 0 then "S0" else "S1"),
          some (if k = 0 then "D0" else "D1")⟩),
        fun k => if k = 0 then InvOutcome.clientError "ThrottlingException"
          else InvOutcome.ok "answer"⟩ false).2.2.1 rfl 0 ⟨"S1", "D1"⟩ rfl

/-- C7 counterexample: on `"<sql>a<sql>b"` — which contains the opening
delimiter but no closing one — the repair-loop extraction
(`split('<sql>')[1].split('</sql>')[0].strip()`) yields `"a"`, NOT the entire
remainder `"a<sql>b"` after the opening delimiter; the claim that the
extraction always treats the entire remainder as the payload is therefore
false (the generation-tool regex does yield the entire remainder here). -/
theorem C7_counterexample :
    occursS "<sql>" "<sql>a<sql>b" = true ∧
    occursS "</sql>" "<sql>a<sql>b" = false ∧
    breakOnL "<sql>".data "<sql>a<sql>b".data = some ([], "a<sql>b".data) ∧
    pySplitExtract "<sql>a<sql>b" = some "a" ∧
    pySplitExtract "<sql>a<sql>b" ≠ some (String.mk (trimL "a<sql>b".data)) ∧
    regexSqlExtract "<sql>a<sql>b" = "a<sql>b" := by
  refine ⟨rfl, rfl, rfl, rfl, ?_, rfl⟩
  intro h
  cases h

/-- C7 (amended): for every model-produced text that contains the opening
delimiter `<sql>` but no closing `</sql>`, neither extraction fails: the
SQL-generation tool's regex extraction yields the ENTIRE remainder after the
first `<sql>` (trimmed, backslashes removed), while the repair loop's
split-based extraction yields the remainder up to the NEXT occurrence of
`<sql>` when one exists — the entire remainder (trimmed) exactly when the
opening delimiter occurs only once. -/
theorem C7_amended_lenient_extraction :
    ∀ (s : String) (b a : List Char),
      breakOnL "<sql>".data s.data = some (b, a) →
      occursS "</sql>" s = false →
      (pySplitExtract s).isSome = true ∧
      regexSqlExtract s = String.mk ((trimL a).filter (fun c => !(c = '\\'))) ∧
      pySplitExtract s = some (String.mk (trimL
        (match breakOnL "<sql>".data a with
          | some (b2, _) => b2
          | none => a))) ∧
      (breakOnL "<sql>".data a = none →
        pySplitExtract s = some (String.mk (trimL a))) := by
  intro s b a hb hno
  have hnoa : occursL "</sql>".data a = false := by
    have hsd : s.data = b ++ "<sql>".data ++ a := breakOnL_decomp hb
    have : occursL "</sql>".data s.data = false := hno
    rw [hsd] at this
    exact not_occursL_right this
  have hmain : pySplitExtract s = some (String.mk (trimL
      (match breakOnL "<sql>".data a with
        | some (b2, _) => b2
        | none => a))) := by
    unfold pySplitExtract
    simp only [hb]
    cases h2 : breakOnL "<sql>".data a with
    | none =>
      simp only [h2]
      rw [breakOnL_eq_none hnoa]
    | some p =>
      cases p with
      | mk b2 rest =>
        simp only [h2]
        have hnob2 : occursL "</sql>".data b2 = false := by
          have had : a = b2 ++ "<sql>".data ++ rest := breakOnL_decomp h2
          rw [had] at hnoa
          exact not_occursL_left (not_occursL_left hnoa)
        rw [breakOnL_eq_none hnob2]
  refine ⟨by rw [hmain]; rfl, ?_, hmain, ?_⟩
  · unfold regexSqlExtract
    simp only [hb]
    rw [breakOnL_eq_none hnoa]
  · intro hnone
    rw [hmain, hnone]

/-- Witness for C7: on `"<sql> x "` (single opening delimiter, no closing
one) both extractions succeed and take the remainder after the delimiter. -/
theorem C7_witness :
    (pySplitExtract "<sql> x ").isSome = true ∧
    regexSqlExtract "<sql> x " =
      String.mk ((trimL " x ".data).filter (fun c => !(c = '\\'))) ∧
    pySplitExtract "<sql> x " = some (String.mk (trimL " x ".data)) := by
  refine ⟨?_, ?_, ?_⟩
  · exact (C7_amended_lenient_extraction "<sql> x " [] " x ".data rfl rfl).1
  · exact (C7_amended_lenient_extraction "<sql> x " [] " x ".data rfl rfl).2.1
  · exact (C7_amended_lenient_extraction "<sql> x " [] " x ".data rfl rfl).2.2.2 rfl

/-- C8: the session-state load never raises — `get_previous_state` returns
`{schema_info := "", sample_data := ""}` when the lookup raised or the
checkpoint is falsy, and field defaults when fields are absent — and invoking
the entry point with `reset_memory = True` passes the empty Context Cache
into the first attempt of the turn for EVERY store state (the store is not
consulted to build it). -/
theorem C8_session_load_never_raises_and_reset :
    (∀ m, get_previous_state (GetStateRes.exn m) =
      { schema_info := "", sample_data := "" }) ∧
    (get_previous_state (GetStateRes.ok none) =
      { schema_info := "", sample_data := "" }) ∧
    (∀ v, get_previous_state (GetStateRes.ok (some v)) =
      { schema_info := v.schema_info.getD "", sample_data := v.sample_data.getD "" }) ∧
    (∀ env : InvEnv, (invoke_agent env true).attemptPayloads.get? 0 =
      some { schema_info := "", sample_data := "" }) := by
  refine ⟨fun m => rfl, rfl, fun v => rfl, ?_⟩
  intro env
  show ((invokeLoop env (3 + 1) 0 ⟨"", ""⟩ 0).2.1).get? 0 = some ⟨"", ""⟩
  exact invokeLoop_head env 3 0 ⟨"", ""⟩ 0

/-- C9: `quick_test_sql` appends `" LIMIT 1"` to the (stripped) query exactly
when the query text does not contain the substring `"LIMIT"`
case-insensitively; it reports success purely on the submission call
returning (no status is ever polled: the result is independent of the
statement's eventual asynchronous status), so a statement accepted at
submission but failing later is still reported valid. -/
theorem C9_quick_test_submission_only :
    ∀ (env : QTEnv) (sql : String),
      (occursS "LIMIT" (pyUpperS sql) = false →
        builtTestQuery sql = pyStrip sql ++ " LIMIT 1") ∧
      (occursS "LIMIT" (pyUpperS sql) = true →
        builtTestQuery sql = pyStrip sql) ∧
      (∀ u, env.submit (builtTestQuery sql) = .ok u →
        quick_test_sql env sql = "SQL is valid ✓") ∧
      (∀ st, quick_test_sql ⟨env.submit, st⟩ sql = quick_test_sql env sql) := by
  intro env sql
  have hcond : occursS "LIMIT" (pyUpperS (pyStrip sql))
      = occursS "LIMIT" (pyUpperS sql) := occursS_LIMIT_strip sql
  refine ⟨?_, ?_, ?_, fun st => rfl⟩
  · intro h
    show (if occursS "LIMIT" (pyUpperS (pyStrip sql)) = true then pyStrip sql
        else pyStrip sql ++ " LIMIT 1") = pyStrip sql ++ " LIMIT 1"
    rw [hcond, h]
    rfl
  · intro h
    show (if occursS "LIMIT" (pyUpperS (pyStrip sql)) = true then pyStrip sql
        else pyStrip sql ++ " LIMIT 1") = pyStrip sql
    rw [hcond, h]
    rfl
  · intro u hu
    unfold quick_test_sql
    rw [hu]

/-- Witness for C9: a query without LIMIT gets `" LIMIT 1"` appended and is
reported valid on successful submission even though its eventual status is
FAILED. -/
theorem C9_witness :
    builtTestQuery "  select a from t  " = pyStrip "  select a from t  " ++ " LIMIT 1" ∧
    quick_test_sql ⟨fun _ => .ok (), Status.FAILED⟩ "  select a from t  " =
      "SQL is valid ✓" := by
  constructor
  · exact (C9_quick_test_submission_only ⟨fun _ => .ok (), Status.FAILED⟩
      "  select a from t  ").1 (by decide)
  · exact (C9_quick_test_submission_only ⟨fun _ => .ok (), Status.FAILED⟩
      "  select a from t  ").2.2.1 () rfl
